import Mathlib

/-!
Verification of the BHMV2-safeplace heritage-risk pipeline.

Shallow embedding of the risk-scoring logic of
`scripts/heritage_risk_assessment.py`, the coordinate filters of
`scripts/final_clean_fire_points.py` and `scripts/inpe_collector.py`, and
the CEMADEN scraper fallback logic of `scripts/cemaden_collector.py`.
Machine floats become exact rationals; pandas/geopandas frames become
lists of records; polygon geometries become axis-aligned rectangles (the
join and distance logic under scrutiny is geometry-generic).
-/

namespace BHMV

/-- An alert record as consumed by the municipal risk aggregation in
`heritage_risk_assessment.py` (fields `municipio`, `uf`, `tipo_alerta`,
`nivel` of the CEMADEN alert list). -/
structure Alert where
  municipio : String
  uf : String
  tipo_alerta : String
  nivel : String
deriving DecidableEq, Repr

/-- The `self.risk_scores` dictionary: severity level to base score. -/
def risk_scores : List (String × ℚ) :=
  [("Muito Alto", 5), ("Alto", 4), ("Moderado", 3), ("Baixo", 2), ("Muito Baixo", 1)]

/-- The `self.risk_weights` dictionary: hazard type to weight. -/
def risk_weights : List (String × ℚ) :=
  [("Risco Hidrológico", 12/10), ("Risco Geológico", 15/10), ("Mov. Massa", 15/10),
   ("Risco Hidro", 12/10), ("Fire Risk", 13/10), ("Dam Proximity", 14/10)]

/-- Python `dict.get(key, default)` over an association list. -/
def dictGet (d : List (String × ℚ)) (k : String) (dflt : ℚ) : ℚ :=
  ((d.find? (fun kv => kv.1 == k)).map Prod.snd).getD dflt

/-- Contribution of one alert inside `_calculate_municipal_cemaden_risk`:
`base_score * weight` with `base_score = risk_scores.get(nivel, 2)` and
`weight = risk_weights.get(tipo_alerta, 1.0)`. -/
def alertContribution (a : Alert) : ℚ :=
  dictGet risk_scores a.nivel 2 * dictGet risk_weights a.tipo_alerta 1

/-- The group that `groupby(['municipio', 'uf'])` forms for one key. -/
def groupFor (key : String × String) (alerts : List Alert) : List Alert :=
  alerts.filter (fun a => a.municipio == key.1 && a.uf == key.2)

/-- The raw summed score of a group, before normalisation. -/
def rawGroupScore (g : List Alert) : ℚ :=
  (g.map alertContribution).sum

/-- One output row of `_calculate_municipal_cemaden_risk`. -/
structure MunicipalRisk where
  municipality : String
  uf : String
  cemaden_risk_score : ℚ
  cemaden_alerts : ℕ
deriving DecidableEq, Repr

/-- The row `_calculate_municipal_cemaden_risk` emits for a fixed
(municipio, uf) key: score `min(risk_score / 2, 10)` and the group size. -/
def municipalRiskFor (key : String × String) (alerts : List Alert) : MunicipalRisk :=
  { municipality := key.1
    uf := key.2
    cemaden_risk_score := min (rawGroupScore (groupFor key alerts) / 2) 10
    cemaden_alerts := (groupFor key alerts).length }

/-- The distinct (municipio, uf) keys of an alert list, as `groupby` forms them. -/
def alertKeys (alerts : List Alert) : List (String × String) :=
  (alerts.map (fun a => (a.municipio, a.uf))).dedup

/-- The full output table of `_calculate_municipal_cemaden_risk`: one row
per distinct key. -/
def municipalRiskTable (alerts : List Alert) : List MunicipalRisk :=
  (alertKeys alerts).map (fun k => municipalRiskFor k alerts)

/-- The `_categorize_risk_score` method, verbatim threshold cascade. -/
def categorize_risk_score (score : ℚ) : String :=
  if score ≥ 8 then "Muito Alto"
  else if score ≥ 6 then "Alto"
  else if score ≥ 4 then "Moderado"
  else if score ≥ 2 then "Baixo"
  else "Muito Baixo"

/-- Ordinal rank of the five category labels, lowest = 0, as the spec
orders them (Muito Baixo < Baixo < Moderado < Alto < Muito Alto). -/
def categoryRank (c : String) : ℕ :=
  if c == "Muito Alto" then 4
  else if c == "Alto" then 3
  else if c == "Moderado" then 2
  else if c == "Baixo" then 1
  else 0

/-- The single alert of the C1 scenario. -/
def c1Alert : Alert :=
  { municipio := "X", uf := "Y", tipo_alerta := "Risco Geológico", nivel := "Alto" }

theorem rank_categorize (t : ℚ) :
    categoryRank (categorize_risk_score t) =
      if t ≥ 8 then 4 else if t ≥ 6 then 3 else if t ≥ 4 then 2 else if t ≥ 2 then 1 else 0 := by
  unfold categorize_risk_score
  split_ifs <;> decide

theorem c1_raw : rawGroupScore (groupFor ("X", "Y") [c1Alert]) = 6 := by
  simp [rawGroupScore, groupFor, alertContribution, c1Alert, dictGet, risk_scores,
    risk_weights]
  norm_num

theorem c1_score : (municipalRiskFor ("X", "Y") [c1Alert]).cemaden_risk_score = 3 := by
  show min (rawGroupScore (groupFor ("X", "Y") [c1Alert]) / 2) 10 = 3
  rw [c1_raw]
  norm_num

/-- C1 counterexample: the single-alert scenario with nivel Alto yields a
municipal score different from the 3.75 the spec computes (the spec uses
base 5, which is the score of Muito Alto, not of Alto). -/
theorem c1_counterexample :
    (municipalRiskFor ("X", "Y") [c1Alert]).cemaden_risk_score ≠ 15/4 := by
  rw [c1_score]
  norm_num

/-- C1 amended: for one record with municipio X, uf Y, tipo Risco
Geológico, nivel Alto, the aggregator returns for key (X, Y) the score
min(4 * 1.5 / 2, 10) = 3 (base score of Alto is 4) and alert count 1. -/
theorem c1_amended :
    (municipalRiskFor ("X", "Y") [c1Alert]).cemaden_risk_score = min (4 * (15/10) / 2) 10 ∧
    (municipalRiskFor ("X", "Y") [c1Alert]).cemaden_risk_score = 3 ∧
    (municipalRiskFor ("X", "Y") [c1Alert]).cemaden_alerts = 1 := by
  refine ⟨?_, c1_score, by decide⟩
  rw [c1_score]
  norm_num

/-- C5: the bucketing of `_categorize_risk_score` is monotone in the
score, and the five buckets are the closed-open intervals
[8, ∞), [6, 8), [4, 6), [2, 4), (-∞, 2): gap-free, non-overlapping, with
boundary values in the higher bucket. -/
theorem c5_categorize_monotone_buckets (t₁ t₂ : ℚ) :
    (t₁ ≤ t₂ → categoryRank (categorize_risk_score t₁) ≤ categoryRank (categorize_risk_score t₂)) ∧
    (categorize_risk_score t₁ = "Muito Alto" ↔ 8 ≤ t₁) ∧
    (categorize_risk_score t₁ = "Alto" ↔ 6 ≤ t₁ ∧ t₁ < 8) ∧
    (categorize_risk_score t₁ = "Moderado" ↔ 4 ≤ t₁ ∧ t₁ < 6) ∧
    (categorize_risk_score t₁ = "Baixo" ↔ 2 ≤ t₁ ∧ t₁ < 4) ∧
    (categorize_risk_score t₁ = "Muito Baixo" ↔ t₁ < 2) := by
  constructor
  · intro h
    rw [rank_categorize, rank_categorize]
    split_ifs <;> first | omega | (exfalso; linarith)
  · unfold categorize_risk_score
    split_ifs with h8 h6 h4 h2 <;>
      refine ⟨?_, ?_, ?_, ?_, ?_⟩ <;>
      constructor <;>
      intro hx <;>
      first
        | rfl
        | (exact absurd hx (by decide))
        | linarith
        | (exact ⟨by linarith, by linarith⟩)

/-- C5 witness: concrete monotone instance 3 ≤ 7. -/
theorem c5_witness :
    categoryRank (categorize_risk_score 3) ≤ categoryRank (categorize_risk_score 7) :=
  (c5_categorize_monotone_buckets 3 7).1 (by norm_num)

theorem dictGet_of_not_mem (d : List (String × ℚ)) (k : String) (dflt : ℚ)
    (h : k ∉ d.map Prod.fst) : dictGet d k dflt = dflt := by
  unfold dictGet
  rw [List.find?_eq_none.mpr]
  · rfl
  · intro kv hkv
    simp only [beq_iff_eq]
    intro heq
    exact h (List.mem_map.mpr ⟨kv, hkv, heq⟩)

/-- C9: the municipal aggregation is total over arbitrary record strings:
an unrecognised nivel contributes the default base score 2 (times the
hazard weight), an unrecognised tipo_alerta contributes the default
weight 1.0, and any single record still yields a well-formed row with
alert count 1 and score min(contribution / 2, 10). -/
theorem c9_total_with_defaults (a : Alert) :
    (a.nivel ∉ risk_scores.map Prod.fst →
      alertContribution a = 2 * dictGet risk_weights a.tipo_alerta 1) ∧
    (a.tipo_alerta ∉ risk_weights.map Prod.fst →
      alertContribution a = dictGet risk_scores a.nivel 2 * 1) ∧
    (municipalRiskFor (a.municipio, a.uf) [a]).cemaden_alerts = 1 ∧
    (municipalRiskFor (a.municipio, a.uf) [a]).cemaden_risk_score =
      min (alertContribution a / 2) 10 := by
  refine ⟨?_, ?_, ?_, ?_⟩
  · intro h
    unfold alertContribution
    rw [dictGet_of_not_mem _ _ _ h]
  · intro h
    unfold alertContribution
    rw [dictGet_of_not_mem _ _ _ h]
  · simp [municipalRiskFor, groupFor]
  · simp [municipalRiskFor, groupFor, rawGroupScore]

/-- C9 witness: a record with unknown nivel gets base score 2. -/
theorem c9_witness :
    alertContribution
        { municipio := "A", uf := "B", tipo_alerta := "Tipo Desconhecido",
          nivel := "Nivel Desconhecido" } =
      2 * dictGet risk_weights "Tipo Desconhecido" 1 :=
  (c9_total_with_defaults _).1 (by decide)

/-- C6: for a fixed (municipality, state) key, the aggregated score and
alert count are invariant under permutation of the alert records, and the
aggregation over a concatenation of two batches is the merge of the raw
per-batch sums and counts (the capped score applied to the merged raw
sum). -/
theorem c6_aggregator_invariance (key : String × String) (l₁ l₂ : List Alert) :
    (l₁.Perm l₂ → municipalRiskFor key l₁ = municipalRiskFor key l₂) ∧
    rawGroupScore (groupFor key (l₁ ++ l₂)) =
      rawGroupScore (groupFor key l₁) + rawGroupScore (groupFor key l₂) ∧
    (municipalRiskFor key (l₁ ++ l₂)).cemaden_alerts =
      (municipalRiskFor key l₁).cemaden_alerts + (municipalRiskFor key l₂).cemaden_alerts ∧
    (municipalRiskFor key (l₁ ++ l₂)).cemaden_risk_score =
      min ((rawGroupScore (groupFor key l₁) + rawGroupScore (groupFor key l₂)) / 2) 10 := by
  refine ⟨?_, ?_, ?_, ?_⟩
  · intro h
    have hg : (groupFor key l₁).Perm (groupFor key l₂) := h.filter _
    unfold municipalRiskFor rawGroupScore
    rw [(hg.map alertContribution).sum_eq, hg.length_eq]
  · simp [rawGroupScore, groupFor, List.filter_append]
  · simp [municipalRiskFor, groupFor, List.filter_append]
  · simp [municipalRiskFor, rawGroupScore, groupFor, List.filter_append]

/-- C6 witness: swapping two alerts leaves the row for (X, Y) unchanged. -/
theorem c6_witness :
    municipalRiskFor ("X", "Y")
        [c1Alert, { municipio := "X", uf := "Y", tipo_alerta := "Risco Hidrológico", nivel := "Baixo" }] =
      municipalRiskFor ("X", "Y")
        [{ municipio := "X", uf := "Y", tipo_alerta := "Risco Hidrológico", nivel := "Baixo" }, c1Alert] :=
  (c6_aggregator_invariance ("X", "Y") _ _).1
    (List.Perm.swap { municipio := "X", uf := "Y", tipo_alerta := "Risco Hidrológico", nivel := "Baixo" } c1Alert [])

/-- A heritage row as it reaches `_combine_all_risks`: spatial-join result
plus the dam and fire proximity scores computed earlier in the pipeline. -/
structure HeritageRisk where
  municipality : String
  uf : String
  dam_risk_score : ℚ
  fire_risk_score : ℚ
deriving DecidableEq, Repr

/-- An output row of `_combine_all_risks`. -/
structure HeritageFinal where
  municipality : String
  uf : String
  dam_risk_score : ℚ
  fire_risk_score : ℚ
  cemaden_risk_score : ℚ
  cemaden_alerts : ℕ
  comprehensive_risk_score : ℚ
  comprehensive_risk_category : String
deriving DecidableEq, Repr

/-- The rows of the municipal table matching a heritage row under the
pandas merge on (municipality, uf). -/
def mergeMatches (h : HeritageRisk) (tbl : List MunicipalRisk) : List MunicipalRisk :=
  tbl.filter (fun m => m.municipality == h.municipality && m.uf == h.uf)

/-- One merged-and-scored row: `fillna(0)` on the CEMADEN columns when the
left merge found no municipal row, then the weighted composite
0.4 * cemaden + 0.3 * dam + 0.3 * fire and its category. -/
def combineRow (h : HeritageRisk) (m? : Option MunicipalRisk) : HeritageFinal :=
  let cem := match m? with | some m => m.cemaden_risk_score | none => 0
  let al := match m? with | some m => m.cemaden_alerts | none => 0
  let total := cem * (4/10) + h.dam_risk_score * (3/10) + h.fire_risk_score * (3/10)
  { municipality := h.municipality
    uf := h.uf
    dam_risk_score := h.dam_risk_score
    fire_risk_score := h.fire_risk_score
    cemaden_risk_score := cem
    cemaden_alerts := al
    comprehensive_risk_score := total
    comprehensive_risk_category := categorize_risk_score total }

/-- The `_combine_all_risks` method: pandas left merge on
(municipality, uf) followed by `fillna(0)` and the weighted average. -/
def combine_all_risks (hs : List HeritageRisk) (tbl : List MunicipalRisk) : List HeritageFinal :=
  hs.flatMap (fun h =>
    match mergeMatches h tbl with
    | [] => [combineRow h none]
    | ms => ms.map (fun m => combineRow h (some m)))

theorem combineRow_formula (h : HeritageRisk) (m? : Option MunicipalRisk) :
    (combineRow h m?).comprehensive_risk_score =
      (combineRow h m?).cemaden_risk_score * (4/10) +
        (combineRow h m?).dam_risk_score * (3/10) +
        (combineRow h m?).fire_risk_score * (3/10) := by
  cases m? <;> rfl

/-- C4: every output row of the composite scorer carries the weighted sum
0.4 * cemaden + 0.3 * dam + 0.3 * fire, the weights sum to 1, and a
heritage row whose (municipality, uf) key is absent from the municipal
table gets CEMADEN component 0 instead of failing. -/
theorem c4_composite_weighted_sum :
    ((4:ℚ)/10 + 3/10 + 3/10 = 1) ∧
    (∀ (hs : List HeritageRisk) (tbl : List MunicipalRisk),
      ∀ row ∈ combine_all_risks hs tbl,
        row.comprehensive_risk_score =
          row.cemaden_risk_score * (4/10) + row.dam_risk_score * (3/10) +
            row.fire_risk_score * (3/10)) ∧
    (∀ (h : HeritageRisk) (tbl : List MunicipalRisk), mergeMatches h tbl = [] →
      combine_all_risks [h] tbl = [combineRow h none] ∧
      (combineRow h none).cemaden_risk_score = 0 ∧
      (combineRow h none).comprehensive_risk_score =
        h.dam_risk_score * (3/10) + h.fire_risk_score * (3/10)) := by
  refine ⟨by norm_num, ?_, ?_⟩
  · intro hs tbl row hrow
    obtain ⟨h, _, hmem⟩ := List.mem_flatMap.mp hrow
    revert hmem
    cases heq : mergeMatches h tbl with
    | nil =>
      intro hmem
      simp only [List.mem_singleton] at hmem
      subst hmem
      exact combineRow_formula h none
    | cons m ms =>
      intro hmem
      obtain ⟨m', _, rfl⟩ := List.mem_map.mp hmem
      exact combineRow_formula h (some m')
  · intro h tbl heq
    refine ⟨?_, rfl, ?_⟩
    · simp [combine_all_risks, heq]
    · rw [combineRow_formula]
      show (0:ℚ) * (4/10) + h.dam_risk_score * (3/10) + h.fire_risk_score * (3/10) =
        h.dam_risk_score * (3/10) + h.fire_risk_score * (3/10)
      ring

/-- C4 witness: a heritage row merged against an empty municipal table
gets CEMADEN 0 and composite 0.3 * dam + 0.3 * fire. -/
theorem c4_witness :
    combine_all_risks
        [{ municipality := "M", uf := "SP", dam_risk_score := 3, fire_risk_score := 5 }] [] =
      [combineRow { municipality := "M", uf := "SP", dam_risk_score := 3, fire_risk_score := 5 } none] ∧
    (combineRow { municipality := "M", uf := "SP", dam_risk_score := 3, fire_risk_score := 5 }
        none).cemaden_risk_score = 0 ∧
    (combineRow { municipality := "M", uf := "SP", dam_risk_score := 3, fire_risk_score := 5 }
        none).comprehensive_risk_score = 3 * (3/10) + 5 * (3/10) :=
  c4_composite_weighted_sum.2.2 _ _ rfl

/-- An axis-aligned rectangle standing in for a municipality polygon; the
join logic of `_spatial_join_heritage_municipalities` is generic in the
geometry, needing only containment and distance. -/
structure Rect where
  minx : ℚ
  miny : ℚ
  maxx : ℚ
  maxy : ℚ
deriving DecidableEq, Repr

/-- A row of the boundaries frame: municipality, uf, geometry. -/
structure Boundary where
  municipality : String
  uf : String
  geom : Rect
deriving DecidableEq, Repr

/-- A heritage point feature; `none` models a missing or empty geometry
(the `point is None or point.is_empty` test in the source). -/
structure Heritage where
  name : String
  geom : Option (ℚ × ℚ)
deriving DecidableEq, Repr

/-- One row of the joined frame: the feature plus the municipality and uf
columns brought in by the join, `none` when the join left them NaN. -/
structure JoinedRow where
  feature : Heritage
  municipality : Option String
  uf : Option String
deriving DecidableEq, Repr

/-- Shapely `point.within(polygon)`: strict interior containment. -/
def Rect.containsPt (r : Rect) (p : ℚ × ℚ) : Bool :=
  (r.minx < p.1) && (p.1 < r.maxx) && (r.miny < p.2) && (p.2 < r.maxy)

/-- Squared Euclidean distance from a point to a rectangle, zero inside
(shapely `geometry.distance`, squared to stay rational). -/
def Rect.distSq (r : Rect) (p : ℚ × ℚ) : ℚ :=
  let dx := max (r.minx - p.1) (max 0 (p.1 - r.maxx))
  let dy := max (r.miny - p.2) (max 0 (p.2 - r.maxy))
  dx * dx + dy * dy

/-- The boundary rows whose polygon contains the feature; empty when the
geometry is missing (gpd.sjoin matches nothing for an empty geometry). -/
def sjoinMatches (h : Heritage) (bs : List Boundary) : List Boundary :=
  match h.geom with
  | none => []
  | some p => bs.filter (fun b => b.geom.containsPt p)

/-- The rows `gpd.sjoin(how = left, predicate = within)` produces for one
left feature: one row per matching boundary, or a single row with NaN
municipality and uf when nothing matches. -/
def sjoinLeftRows (h : Heritage) (bs : List Boundary) : List JoinedRow :=
  match sjoinMatches h bs with
  | [] => [{ feature := h, municipality := none, uf := none }]
  | ms => ms.map (fun b => { feature := h, municipality := some b.municipality, uf := some b.uf })

/-- The full left spatial join over all features. -/
def sjoinLeft (hs : List Heritage) (bs : List Boundary) : List JoinedRow :=
  hs.flatMap (fun h => sjoinLeftRows h bs)

/-- Running argmin pass of `distances.idxmin()`: keeps the first boundary
attaining the minimal distance. -/
def nearestAux (p : ℚ × ℚ) (best : Boundary) : List Boundary → Boundary
  | [] => best
  | b :: bs => nearestAux p (if b.geom.distSq p < best.geom.distSq p then b else best) bs

/-- `distances.idxmin()` over the boundaries frame: `none` models the
ValueError raised on an empty distance series (caught by the source and
answered with the Unknown sentinel). -/
def nearestBoundary (p : ℚ × ℚ) : List Boundary → Option Boundary
  | [] => none
  | b :: bs => some (nearestAux p b bs)

/-- The unmatched-row pass of `_spatial_join_heritage_municipalities`:
rows already holding a municipality are untouched; a missing or empty
geometry is skipped by `continue` (left NaN); otherwise the nearest
boundary is assigned, and the exception fallback writes Unknown. -/
def resolveRow (bs : List Boundary) (row : JoinedRow) : JoinedRow :=
  match row.municipality with
  | some _ => row
  | none =>
    match row.feature.geom with
    | none => row
    | some p =>
      match nearestBoundary p bs with
      | none => { row with municipality := some "Unknown", uf := some "Unknown" }
      | some b => { row with municipality := some b.municipality, uf := some b.uf }

/-- The whole `_spatial_join_heritage_municipalities` method: left spatial
join, then the nearest-municipality fallback for unmatched rows. -/
def spatial_join_heritage_municipalities (hs : List Heritage) (bs : List Boundary) :
    List JoinedRow :=
  (sjoinLeft hs bs).map (resolveRow bs)

theorem sjoinLeftRows_length (h : Heritage) (bs : List Boundary) :
    (sjoinLeftRows h bs).length = max 1 (sjoinMatches h bs).length := by
  unfold sjoinLeftRows
  cases heq : sjoinMatches h bs with
  | nil => rfl
  | cons m ms =>
    simp only [List.length_map, List.length_cons]
    omega

theorem spatial_join_length (hs : List Heritage) (bs : List Boundary) :
    (spatial_join_heritage_municipalities hs bs).length =
      (hs.map (fun h => max 1 (sjoinMatches h bs).length)).sum := by
  unfold spatial_join_heritage_municipalities sjoinLeft
  rw [List.length_map, List.length_flatMap]
  simp only [Function.comp_def, sjoinLeftRows_length]

theorem length_le_sum_max (ns : List ℕ) : ns.length ≤ (ns.map (fun n => max 1 n)).sum := by
  induction ns with
  | nil => simp
  | cons n t ih =>
    simp only [List.map_cons, List.sum_cons, List.length_cons]
    have := le_max_left 1 n
    omega

theorem sum_max_of_le_one (ns : List ℕ) (h : ∀ n ∈ ns, n ≤ 1) :
    (ns.map (fun n => max 1 n)).sum = ns.length := by
  induction ns with
  | nil => simp
  | cons n t ih =>
    have h1 : n ≤ 1 := h n (by simp)
    have h2 : max 1 n = 1 := by omega
    simp only [List.map_cons, List.sum_cons, h2, List.length_cons]
    rw [ih (fun x hx => h x (by simp [hx]))]
    omega

/-- C3 counterexample: one point strictly inside two overlapping boundary
polygons produces two output rows, so the output row count is not the
input point count. -/
theorem c3_counterexample :
    (spatial_join_heritage_municipalities
        [{ name := "site", geom := some (0, 0) }]
        [{ municipality := "A", uf := "SP", geom := { minx := -1, miny := -1, maxx := 1, maxy := 1 } },
         { municipality := "B", uf := "RJ", geom := { minx := -2, miny := -2, maxx := 2, maxy := 2 } }]).length ≠ 1 := by
  decide

/-- C3 amended: the output row count is the sum over input features of
max(1, number of boundaries containing the feature); it is never below
the input count (no feature is dropped), and it equals the input count
whenever no feature lies within more than one boundary. -/
theorem c3_amended (hs : List Heritage) (bs : List Boundary) :
    (spatial_join_heritage_municipalities hs bs).length =
      (hs.map (fun h => max 1 (sjoinMatches h bs).length)).sum ∧
    hs.length ≤ (spatial_join_heritage_municipalities hs bs).length ∧
    ((∀ h ∈ hs, (sjoinMatches h bs).length ≤ 1) →
      (spatial_join_heritage_municipalities hs bs).length = hs.length) := by
  have hmap : hs.map (fun h => max 1 (sjoinMatches h bs).length) =
      (hs.map (fun h => (sjoinMatches h bs).length)).map (fun n => max 1 n) := by
    rw [List.map_map]
    rfl
  refine ⟨spatial_join_length hs bs, ?_, ?_⟩
  · rw [spatial_join_length, hmap]
    have := length_le_sum_max (hs.map (fun h => (sjoinMatches h bs).length))
    simpa using this
  · intro hall
    rw [spatial_join_length, hmap, sum_max_of_le_one]
    · simp
    · intro n hn
      obtain ⟨h, hh, rfl⟩ := List.mem_map.mp hn
      exact hall h hh

/-- C3 witness: one point in exactly one boundary keeps row count 1. -/
theorem c3_witness :
    (spatial_join_heritage_municipalities
        [{ name := "site", geom := some (0, 0) }]
        [{ municipality := "A", uf := "SP", geom := { minx := -1, miny := -1, maxx := 1, maxy := 1 } }]).length = 1 :=
  (c3_amended _ _).2.2 (by decide)

theorem nearestAux_mem (p : ℚ × ℚ) (best : Boundary) (l : List Boundary) :
    nearestAux p best l = best ∨ nearestAux p best l ∈ l := by
  induction l generalizing best with
  | nil => exact Or.inl rfl
  | cons b bs ih =>
    show nearestAux p (if b.geom.distSq p < best.geom.distSq p then b else best) bs = best ∨
      nearestAux p (if b.geom.distSq p < best.geom.distSq p then b else best) bs ∈ b :: bs
    rcases ih (if b.geom.distSq p < best.geom.distSq p then b else best) with h | h
    · rw [h]
      split_ifs
      · exact Or.inr (List.mem_cons_self _ _)
      · exact Or.inl rfl
    · exact Or.inr (List.mem_cons_of_mem _ h)

theorem nearestAux_min (p : ℚ × ℚ) (best : Boundary) (l : List Boundary) :
    (nearestAux p best l).geom.distSq p ≤ best.geom.distSq p ∧
      ∀ b' ∈ l, (nearestAux p best l).geom.distSq p ≤ b'.geom.distSq p := by
  induction l generalizing best with
  | nil => exact ⟨le_refl _, by simp⟩
  | cons b bs ih =>
    obtain ⟨h1, h2⟩ := ih (if b.geom.distSq p < best.geom.distSq p then b else best)
    refine ⟨le_trans h1 ?_, ?_⟩
    · split_ifs with hc
      · exact le_of_lt hc
      · exact le_refl _
    · intro b' hb'
      rcases List.mem_cons.mp hb' with rfl | hb'
      · refine le_trans h1 ?_
        split_ifs with hc
        · exact le_refl _
        · exact le_of_not_lt hc
      · exact h2 b' hb'

/-- C7 counterexample: a feature with empty geometry and no containing
boundary is retained but with a missing municipality (NaN), not the
Unknown sentinel: the source skips it with `continue` before the
fallback ever runs. -/
theorem c7_counterexample :
    (spatial_join_heritage_municipalities
        [{ name := "site", geom := none }]
        [{ municipality := "A", uf := "SP", geom := { minx := 0, miny := 0, maxx := 1, maxy := 1 } }]).map
        JoinedRow.municipality ≠ [some "Unknown"] := by
  decide

/-- C7 amended: a feature with nonempty geometry contained in zero
boundaries is assigned the first nearest boundary by distance; a feature
with missing or empty geometry is retained with missing (NaN)
municipality and uf rather than the Unknown sentinel; the Unknown
sentinel appears exactly when the distance computation itself fails
(empty boundary frame); and the feature is always retained. -/
theorem c7_amended (h : Heritage) (p : ℚ × ℚ) (bs : List Boundary) :
    (h.geom = none →
      spatial_join_heritage_municipalities [h] bs =
        [{ feature := h, municipality := none, uf := none }]) ∧
    (∀ b bs', h.geom = some p → sjoinMatches h bs = [] → bs = b :: bs' →
      spatial_join_heritage_municipalities [h] bs =
        [{ feature := h, municipality := some (nearestAux p b bs').municipality,
           uf := some (nearestAux p b bs').uf }]) ∧
    (h.geom = some p →
      spatial_join_heritage_municipalities [h] [] =
        [{ feature := h, municipality := some "Unknown", uf := some "Unknown" }]) ∧
    (∀ b, nearestBoundary p bs = some b →
      b ∈ bs ∧ ∀ b' ∈ bs, b.geom.distSq p ≤ b'.geom.distSq p) ∧
    1 ≤ (spatial_join_heritage_municipalities [h] bs).length := by
  refine ⟨?_, ?_, ?_, ?_, ?_⟩
  · intro hg
    obtain ⟨nm, g⟩ := h
    simp only at hg
    subst hg
    rfl
  · intro b bs' hg hm hbs
    obtain ⟨nm, g⟩ := h
    simp only at hg
    subst hg
    subst hbs
    unfold spatial_join_heritage_municipalities sjoinLeft
    simp only [List.flatMap_cons, List.flatMap_nil, List.append_nil]
    unfold sjoinLeftRows
    rw [hm]
    rfl
  · intro hg
    obtain ⟨nm, g⟩ := h
    simp only at hg
    subst hg
    rfl
  · intro b hb
    cases bs with
    | nil => cases hb
    | cons b₀ t =>
      have hb' : nearestAux p b₀ t = b := Option.some_injective _ hb
      subst hb'
      constructor
      · rcases nearestAux_mem p b₀ t with h | h
        · rw [h]; exact List.mem_cons_self _ _
        · exact List.mem_cons_of_mem _ h
      · intro b' hbm
        rcases List.mem_cons.mp hbm with h' | h'
        · rw [h']
          exact (nearestAux_min p b₀ t).1
        · exact (nearestAux_min p b₀ t).2 b' h'
  · rw [spatial_join_length]
    simp only [List.map_cons, List.map_nil, List.sum_cons, List.sum_nil]
    omega

/-- C7 witness: an empty-geometry feature comes out with NaN municipality. -/
theorem c7_witness :
    spatial_join_heritage_municipalities
        [{ name := "site", geom := none }]
        [{ municipality := "A", uf := "SP", geom := { minx := 0, miny := 0, maxx := 1, maxy := 1 } }] =
      [{ feature := { name := "site", geom := none }, municipality := none, uf := none }] :=
  (c7_amended { name := "site", geom := none } (0, 0) _).1 rfl

/-- A geographic bounding box, as used by the bounding-box filters of
`final_clean_fire_points.py` (margin 0) and the `ultra_strict_bounds`
plus `border_buffer` filter of `inpe_collector.py`. -/
structure BBox where
  min_lon : ℚ
  max_lon : ℚ
  min_lat : ℚ
  max_lat : ℚ
deriving DecidableEq, Repr

/-- The keep condition of the coordinate filters:
min_lon + margin <= lon <= max_lon - margin and likewise for latitude. -/
def inBounds (bb : BBox) (margin : ℚ) (p : ℚ × ℚ) : Bool :=
  (bb.min_lon + margin ≤ p.1) && (p.1 ≤ bb.max_lon - margin) &&
    (bb.min_lat + margin ≤ p.2) && (p.2 ≤ bb.max_lat - margin)

/-- The filter loop of the coordinate validator: walks the input once,
appending each point to the valid or the invalid sequence. -/
def validatePoints (bb : BBox) (margin : ℚ) : List (ℚ × ℚ) → List (ℚ × ℚ) × List (ℚ × ℚ)
  | [] => ([], [])
  | p :: ps =>
    let r := validatePoints bb margin ps
    if inBounds bb margin p then (p :: r.1, r.2) else (r.1, p :: r.2)

theorem validatePoints_eq (bb : BBox) (margin : ℚ) (pts : List (ℚ × ℚ)) :
    validatePoints bb margin pts =
      (pts.filter (fun p => inBounds bb margin p),
       pts.filter (fun p => ! inBounds bb margin p)) := by
  induction pts with
  | nil => rfl
  | cons p ps ih =>
    unfold validatePoints
    rw [ih]
    by_cases hc : inBounds bb margin p
    · simp [hc]
    · simp [hc]

/-- C8: the coordinate validator partitions its input: valid and invalid
are the two filter halves, their concatenation is a permutation of the
input, each preserves the input order (sublists), every valid point
satisfies the bounding-box predicate with margin, and no point is in
both halves. -/
theorem c8_validator_partition (bb : BBox) (margin : ℚ) (pts : List (ℚ × ℚ)) :
    (validatePoints bb margin pts).1 = pts.filter (fun p => inBounds bb margin p) ∧
    (validatePoints bb margin pts).2 = pts.filter (fun p => ! inBounds bb margin p) ∧
    ((validatePoints bb margin pts).1 ++ (validatePoints bb margin pts).2).Perm pts ∧
    (validatePoints bb margin pts).1.Sublist pts ∧
    (validatePoints bb margin pts).2.Sublist pts ∧
    (∀ q ∈ (validatePoints bb margin pts).1,
      bb.min_lon + margin ≤ q.1 ∧ q.1 ≤ bb.max_lon - margin ∧
        bb.min_lat + margin ≤ q.2 ∧ q.2 ≤ bb.max_lat - margin) ∧
    (∀ q ∈ (validatePoints bb margin pts).1, q ∉ (validatePoints bb margin pts).2) := by
  have hv : (validatePoints bb margin pts).1 = pts.filter (fun p => inBounds bb margin p) := by
    rw [validatePoints_eq]
  have hi : (validatePoints bb margin pts).2 = pts.filter (fun p => ! inBounds bb margin p) := by
    rw [validatePoints_eq]
  refine ⟨hv, hi, ?_, ?_, ?_, ?_, ?_⟩
  · rw [hv, hi]
    exact List.filter_append_perm _ _
  · rw [hv]
    exact List.filter_sublist _
  · rw [hi]
    exact List.filter_sublist _
  · intro q hq
    rw [hv] at hq
    have hb := (List.mem_filter.mp hq).2
    unfold inBounds at hb
    simp only [Bool.and_eq_true, decide_eq_true_eq] at hb
    exact ⟨hb.1.1.1, hb.1.1.2, hb.1.2, hb.2⟩
  · intro q hq hq2
    rw [hv] at hq
    rw [hi] at hq2
    have h1 := (List.mem_filter.mp hq).2
    have h2 := (List.mem_filter.mp hq2).2
    rw [h1] at h2
    cases h2

/-- C8 witness: with the Brazil-mainland box of
`final_clean_fire_points.py` and margin 0, a kept point is not in the
invalid half. -/
theorem c8_witness :
    ((-50 : ℚ), (-10 : ℚ)) ∉
      (validatePoints { min_lon := -70, max_lon := -35, min_lat := -30, max_lat := 5 } 0
        [((-50 : ℚ), (-10 : ℚ)), (10, 10)]).2 :=
  (c8_validator_partition _ _ _).2.2.2.2.2.2 ((-50 : ℚ), (-10 : ℚ))
    (by simp +decide [validatePoints, inBounds])

/-- The buffer radius `_calculate_dam_proximity_risk` passes to
`geometry.buffer`: 0.045, in raw EPSG 4326 degree coordinates (the source
comments it as approximately 5 km). -/
def dam_buffer_radius_deg : ℚ := 45/1000

/-- Squared Euclidean distance in degree coordinates, the metric in which
the source buffers and joins. -/
def degDistSq (p q : ℚ × ℚ) : ℚ :=
  (p.1 - q.1) * (p.1 - q.1) + (p.2 - q.2) * (p.2 - q.2)

/-- Membership in some dam buffer: the buffer of a point dam is the disc
of radius 0.045 degrees around it (the shapely polygonal approximation is
inscribed in this disc; the inputs used below are far from the rim). -/
def withinDamBuffer (dams : List (ℚ × ℚ)) (p : ℚ × ℚ) : Bool :=
  dams.any (fun d => degDistSq p d ≤ dam_buffer_radius_deg * dam_buffer_radius_deg)

/-- The dam score `_calculate_dam_proximity_risk` assigns a heritage
point: the fixed constant 3 inside some dam buffer, else 0. -/
def dam_risk_score (dams : List (ℚ × ℚ)) (p : ℚ × ℚ) : ℚ :=
  if withinDamBuffer dams p then 3 else 0

/-- Geodesic east-west distance in km between two points on the same
latitude whose cosine is `c`, separated by `dlon ≥ 0` degrees of
longitude: 111.32 km per degree at the equator, scaled by the latitude
cosine (equirectangular model of the geodesic distance the spec names). -/
def geodesicKmEastWest (c dlon : ℚ) : ℚ := (11132/100) * c * dlon

/-- C2: the source buffers dams by 0.045 degree in geographic coordinates,
so the 5 km rule of the spec is broken. At latitude cosine 0.94 (about
20 degrees south, inside the study region) a point 4.999999 km due east
of a dam scores 0, not the nonzero constant; and at the equator a point
5.000001 km due east scores 3, not 0. The degree buffer is metrically
accurate at no more than one latitude. -/
theorem c2_degree_buffer_not_metric :
    geodesicKmEastWest (94/100) ((4999999/1000000) / ((11132/100) * (94/100))) =
      4999999/1000000 ∧
    dam_risk_score [((-45 : ℚ), -20)]
      (-45 + (4999999/1000000) / ((11132/100) * (94/100)), -20) = 0 ∧
    geodesicKmEastWest 1 ((4999999/1000000) / (11132/100)) = 4999999/1000000 ∧
    dam_risk_score [((-45 : ℚ), 0)] (-45 + (4999999/1000000) / (11132/100), 0) = 3 ∧
    geodesicKmEastWest 1 ((5000001/1000000) / (11132/100)) = 5000001/1000000 ∧
    dam_risk_score [((-45 : ℚ), 0)] (-45 + (5000001/1000000) / (11132/100), 0) = 3 := by
  refine ⟨by norm_num [geodesicKmEastWest], ?_, by norm_num [geodesicKmEastWest], ?_, by norm_num [geodesicKmEastWest], ?_⟩ <;>
    simp only [dam_risk_score, withinDamBuffer, degDistSq, dam_buffer_radius_deg,
      List.any_cons, List.any_nil, Bool.or_false] <;>
    norm_num

/-- An alert record as `cemaden_collector.py` builds it. -/
structure CemadenAlert where
  municipio : String
  uf : String
  tipo_alerta : String
  nivel : String
  abertura : String
  timestamp : ℚ
deriving DecidableEq, Repr

/-- The `create_sample_data` fixture: five fixed alerts; `now` stands for
the `datetime.now().timestamp()` stamped on each record. -/
def create_sample_data (now : ℚ) : List CemadenAlert :=
  [{ municipio := "São Paulo", uf := "SP", tipo_alerta := "Risco Hidrológico",
     nivel := "Alto", abertura := "2025-07-14 10:00:00", timestamp := now },
   { municipio := "Rio de Janeiro", uf := "RJ", tipo_alerta := "Risco Geológico",
     nivel := "Muito Alto", abertura := "2025-07-14 11:00:00", timestamp := now },
   { municipio := "Belo Horizonte", uf := "MG", tipo_alerta := "Risco Hidrológico",
     nivel := "Moderado", abertura := "2025-07-14 12:00:00", timestamp := now },
   { municipio := "Salvador", uf := "BA", tipo_alerta := "Risco Geológico",
     nivel := "Alto", abertura := "2025-07-14 13:00:00", timestamp := now },
   { municipio := "Recife", uf := "PE", tipo_alerta := "Risco Hidrológico",
     nivel := "Muito Alto", abertura := "2025-07-14 14:00:00", timestamp := now }]

/-- Python `re.sub` of a parenthesised group, fuel-structured scan: a
`(` opens a removal up to the first `)`; a `(` with no later `)` does not
match the pattern and stays. -/
def stripParensF : ℕ → List Char → List Char
  | 0, l => l
  | _ + 1, [] => []
  | fuel + 1, '(' :: rest =>
    if rest.any (fun c => c = ')') then
      stripParensF fuel ((rest.dropWhile (fun c => c ≠ ')')).drop 1)
    else '(' :: stripParensF fuel rest
  | fuel + 1, c :: rest => c :: stripParensF fuel rest

def stripParens (l : List Char) : List Char := stripParensF l.length l

/-- Python `str.split()` restricted to the space character (the only
whitespace in the data): splits on runs of spaces, dropping empties. -/
def words (l : List Char) : List (List Char) :=
  (l.foldr
    (fun c acc =>
      match acc with
      | [] => []
      | w :: rest => if c = ' ' then [] :: w :: rest else (c :: w) :: rest)
    [[]]).filter (fun w => w ≠ [])

/-- Python lowercasing over ASCII and the Latin-1 letters appearing in
the data. -/
def pyToLower (c : Char) : Char :=
  if 0xC0 ≤ c.toNat && c.toNat ≤ 0xDE && c.toNat ≠ 0xD7 then Char.ofNat (c.toNat + 32)
  else c.toLower

/-- Python uppercasing over ASCII and the Latin-1 letters appearing in
the data. -/
def pyToUpper (c : Char) : Char :=
  if 0xE0 ≤ c.toNat && c.toNat ≤ 0xFE && c.toNat ≠ 0xF7 then Char.ofNat (c.toNat - 32)
  else c.toUpper

/-- Letter test covering ASCII and Latin-1 letters. -/
def pyIsAlpha (c : Char) : Bool :=
  c.isAlpha || (0xC0 ≤ c.toNat && c.toNat ≤ 0xFF && c.toNat ≠ 0xD7 && c.toNat ≠ 0xF7)

/-- Python `str.title()`: the first character of each letter run is
uppercased, the rest lowercased. -/
def pyTitleGo : Bool → List Char → List Char
  | _, [] => []
  | prevAlpha, c :: rest =>
    (if pyIsAlpha c then (if prevAlpha then pyToLower c else pyToUpper c) else c) ::
      pyTitleGo (pyIsAlpha c) rest

/-- Python `str.strip()` restricted to the space character (the only
whitespace in the data). -/
def trimSpaces (l : List Char) : List Char :=
  ((l.dropWhile (fun c => c = ' ')).reverse.dropWhile (fun c => c = ' ')).reverse

/-- The `clean_municipality_name` method: drop parenthesised content,
collapse whitespace, title-case, strip. -/
def clean_municipality_name (name : String) : String :=
  if name = "" then ""
  else
    String.mk (trimSpaces (pyTitleGo false
      (List.intercalate [' '] (words (stripParens name.toList)))))

/-- One step of `process_alerts`: cleaned municipality, uppercased uf
(Python `str.upper()`, per character). -/
def process_alert (a : CemadenAlert) : CemadenAlert :=
  { a with municipio := clean_municipality_name a.municipio,
           uf := String.mk (a.uf.toList.map pyToUpper) }

/-- The `process_alerts` method. -/
def process_alerts (alerts : List CemadenAlert) : List CemadenAlert :=
  alerts.map process_alert

/-- The grouping key of `remove_duplicates`. -/
def cemadenKey (a : CemadenAlert) : String :=
  a.municipio ++ "_" ++ a.uf ++ "_" ++ a.tipo_alerta

/-- One step of the `remove_duplicates` dict build: a known key keeps the
newer record in place, a fresh key appends at the end (Python dict
insertion order). -/
def dedupStep (acc : List (String × CemadenAlert)) (a : CemadenAlert) :
    List (String × CemadenAlert) :=
  if (acc.find? (fun kv => kv.1 == cemadenKey a)).isSome then
    acc.map (fun kv =>
      if kv.1 == cemadenKey a then
        if a.timestamp > kv.2.timestamp then (kv.1, a) else kv
      else kv)
  else acc ++ [(cemadenKey a, a)]

/-- The `remove_duplicates` method. -/
def remove_duplicates (alerts : List CemadenAlert) : List CemadenAlert :=
  (alerts.foldl dedupStep []).map Prod.snd

/-- What `run_scraper` leaves behind: its return value and the alert list
written to `real_time_cemaden_data.json` (`none` when nothing is saved;
`save_data` returns without writing on an empty list). -/
structure ScraperRun where
  result : List CemadenAlert
  saved : Option (List CemadenAlert)
deriving DecidableEq, Repr

/-- The `save_data` method, reduced to what it persists. -/
def save_data (alerts : List CemadenAlert) : Option (List CemadenAlert) :=
  if alerts.isEmpty then none else some alerts

/-- The `run_scraper` control flow: a failed connection test returns the
sample data at once (no processing, no saving); otherwise the first
nonempty of the Selenium alerts, the requests alerts and the sample data
is processed, deduplicated and saved. The two scraping outcomes and the
clock are inputs. -/
def run_scraper (connectionOk : Bool) (seleniumAlerts requestAlerts : List CemadenAlert)
    (now : ℚ) : ScraperRun :=
  if connectionOk then
    let alerts :=
      match seleniumAlerts with
      | [] =>
        match requestAlerts with
        | [] => create_sample_data now
        | r => r
      | s => s
    let fin := remove_duplicates (process_alerts alerts)
    { result := fin, saved := save_data fin }
  else
    { result := create_sample_data now, saved := none }

/-- C10 counterexample: when the connection test fails, `run_scraper`
saves nothing at all, and the list it returns is the raw sample, not the
cleaned and deduplicated one (title-casing turns Rio de Janeiro into
Rio De Janeiro on the cleaned path). -/
theorem c10_counterexample :
    (run_scraper false [] [] 0).saved = none ∧
    (run_scraper false [] [] 0).result ≠ remove_duplicates (process_alerts (create_sample_data 0)) := by
  refine ⟨rfl, ?_⟩
  decide

/-- C10 amended: a failed connection test makes `run_scraper` return the
raw five-record sample without cleaning, deduplication or saving; when
the connection succeeds but both scraping paths yield zero alerts, it
returns the cleaned, deduplicated five-record sample and saves that same
list to `real_time_cemaden_data.json`. -/
theorem c10_amended :
    (∀ (now : ℚ) (sel req : List CemadenAlert),
      run_scraper false sel req now = { result := create_sample_data now, saved := none }) ∧
    (run_scraper true [] [] 0).result = remove_duplicates (process_alerts (create_sample_data 0)) ∧
    (run_scraper true [] [] 0).saved = some ((run_scraper true [] [] 0).result) ∧
    (run_scraper true [] [] 0).result.length = 5 := by
  refine ⟨fun now sel req => rfl, rfl, ?_, ?_⟩
  · decide
  · decide

end BHMV
